/-
Verification of the PREMONITOR monitoring and fusion orchestrator.

This file is a shallow embedding, in Lean 4, of the parts of the
repository that the checked properties are about:

* `build_lstm_feature_vector`   (premonitor_main_multi_equipment.py)
* `check_raw_sensor_thresholds` (premonitor_main_multi_equipment.py)
* `check_anomaly_and_alert`     (premonitor_main_multi_equipment.py)
* the per-equipment LSTM buffer push in `monitor_equipment`
* the fusion `if/elif` chain of `main` (premonitor_main_hardened.py)
* `run_inference`               (premonitor_main_hardened.py)
* `MotionDetector.detect_motion`, `is_cooldown_active` and the motion
  branch of `monitor_security`  (security_monitor.py)
* `TamperDetector.check_tamper` (security_monitor.py)
* `get_equipment_thresholds`, `validate_equipment_config`
                                (equipment_registry.py)

Modelling conventions: Python floats are embedded as exact rationals
(ℚ); NumPy's NaN sentinel becomes a dedicated constructor of the
feature-value type; Python dicts whose iteration order is irrelevant
become association lists read through `List.lookup`; wall-clock
timestamps become rational numbers of seconds; a Python expression
that can raise becomes an `Option`.  External effects (hardware reads,
alert channels, file logging) are not modelled; instead the functions
return the events / composed messages they would hand to those
collaborators.
-/
import Mathlib

/-- Value stored under one key of a sensor-readings dict: either a scalar
float or a NumPy array (audio samples, thermal frames). -/
inductive SensorVal : Type
  | scalar (q : ℚ)
  | array (xs : List ℚ)
deriving DecidableEq, Repr

/-- The `readings["sensors"]` dict: an association list from capability
name to value. -/
abbrev SMap := List (String × SensorVal)

/-- Python `float(x)` on a dict value: succeeds on a scalar, succeeds on a
size-one array (NumPy extracts the single element), raises otherwise. -/
def floatOfVal : SensorVal → Option ℚ
  | SensorVal.scalar q => some q
  | SensorVal.array [q] => some q
  | SensorVal.array _ => none

/-- Combined `"k" in sensors` test plus `float(sensors["k"])`:
`none` when the key is absent or the conversion raises. -/
def floatLookup (s : SMap) (k : String) : Option ℚ :=
  (s.lookup k).bind floatOfVal

/-- Arithmetic mean of a list of rationals (NumPy `np.mean`; callers
guard against the empty list, whose NumPy mean is NaN). -/
def listMean (xs : List ℚ) : ℚ := xs.sum / xs.length

/-- Mean of squares of a list of rationals: the argument of the square
root in `np.sqrt(np.mean(audio ** 2))`. -/
def listMeanSq (xs : List ℚ) : ℚ := (xs.map (fun q => q * q)).sum / xs.length

/-- One entry of the LSTM feature vector.  `nan` is the NaN sentinel for a
missing capability; `rms` m stands for the irrational value √m produced
by `np.sqrt(np.mean(audio ** 2))`, carried symbolically by its
(rational) radicand, which determines it uniquely. -/
inductive Feat : Type
  | num (q : ℚ)
  | nan
  | rms (meanSq : ℚ)
deriving DecidableEq, Repr

/-- Scalar feature slot: `float(sensors.get(k, np.nan))`.  An absent key
yields the NaN sentinel; a scalar yields its value; `float()` of a
non-size-one array raises, which aborts the build (`none`). -/
def scalarFeat (s : SMap) (k : String) : Option Feat :=
  match s.lookup k with
  | none => some Feat.nan
  | some (SensorVal.scalar q) => some (Feat.num q)
  | some (SensorVal.array [q]) => some (Feat.num q)
  | some (SensorVal.array _) => none

/-- Acoustic RMS slot: an `np.ndarray` value gives √(mean of squares)
(NaN when the array is empty, since `np.mean([])` is NaN); any other or
absent value gives the NaN sentinel. -/
def audioFeat (s : SMap) : Feat :=
  match s.lookup "audio" with
  | some (SensorVal.array xs) => if xs = [] then Feat.nan else Feat.rms (listMeanSq xs)
  | _ => Feat.nan

/-- Thermal mean slot: an `np.ndarray` value gives its arithmetic mean
(NaN when empty); any other or absent value gives the NaN sentinel. -/
def thermalFeat (s : SMap) : Feat :=
  match s.lookup "thermal" with
  | some (SensorVal.array xs) => if xs = [] then Feat.nan else Feat.num (listMean xs)
  | _ => Feat.nan

/-- Embedding of `build_lstm_feature_vector(readings, equipment_type)`:
the fixed-order six-entry vector
[temperature, gas, vibration, current, acoustic_rms, thermal_mean].
The `equipmentType` parameter is accepted and ignored, as in the source.
`none` models the `float()` exception on an ill-typed scalar slot. -/
def build_lstm_feature_vector (equipmentType : String) (s : SMap) : Option (List Feat) :=
  match scalarFeat s "temperature", scalarFeat s "gas",
        scalarFeat s "vibration", scalarFeat s "current" with
  | some f0, some f1, some f2, some f3 =>
      some [f0, f1, f2, f3, audioFeat s, thermalFeat s]
  | _, _, _, _ => none

/-- Per-type threshold profile: one field per key that occurs in some
entry of `EQUIPMENT_THRESHOLDS`; `none` when the key is absent for the
type (Python `dict.get` returning its default). -/
structure Thresholds : Type where
  thermal_anomaly_confidence : Option ℚ
  acoustic_anomaly_confidence : Option ℚ
  lstm_reconstruction_threshold : Option ℚ
  fusion_correlation_confidence : Option ℚ
  gas_analog_threshold : Option ℚ
  temperature_range : Option (ℚ × ℚ)
  temperature_max : Option ℚ
  co2_range : Option (ℚ × ℚ)
  humidity_range : Option (ℚ × ℚ)
  pressure_range : Option (ℚ × ℚ)
  pressure_min : Option ℚ
  oxygen_min : Option ℚ
  vibration_threshold : Option ℚ
  current_threshold : Option ℚ
  airflow_min : Option ℚ
deriving DecidableEq, Repr

/-- Profile with every key absent; the concrete profiles below override
exactly the keys their dict carries. -/
def noThresholds : Thresholds :=
  ⟨none, none, none, none, none, none, none, none, none, none, none, none, none, none, none⟩

/-- The `"fridge"` entry of `EQUIPMENT_THRESHOLDS` (also the designated
fallback profile of `get_equipment_thresholds`). -/
def fridgeThresholds : Thresholds :=
  { noThresholds with
    thermal_anomaly_confidence := some 0.85
    acoustic_anomaly_confidence := some 0.85
    lstm_reconstruction_threshold := some 0.045
    fusion_correlation_confidence := some 0.60
    gas_analog_threshold := some 300
    temperature_range := some (2.0, 8.0) }

/-- Embedding of the `EQUIPMENT_THRESHOLDS` dict of equipment_registry.py. -/
def EQUIPMENT_THRESHOLDS : List (String × Thresholds) :=
  [ ("fridge", fridgeThresholds),
    ("freezer_ultra_low",
      { noThresholds with
        thermal_anomaly_confidence := some 0.85
        acoustic_anomaly_confidence := some 0.80
        lstm_reconstruction_threshold := some 0.040
        fusion_correlation_confidence := some 0.55
        gas_analog_threshold := some 300
        temperature_range := some (-82.0, -78.0) }),
    ("incubator",
      { noThresholds with
        thermal_anomaly_confidence := some 0.90
        acoustic_anomaly_confidence := some 0.85
        lstm_reconstruction_threshold := some 0.040
        fusion_correlation_confidence := some 0.60
        temperature_range := some (36.5, 37.5)
        co2_range := some (4.5, 5.5)
        humidity_range := some (85, 95) }),
    ("centrifuge",
      { noThresholds with
        thermal_anomaly_confidence := some 0.85
        acoustic_anomaly_confidence := some 0.75
        lstm_reconstruction_threshold := some 0.050
        vibration_threshold := some 0.5
        current_threshold := some 5.0 }),
    ("autoclave",
      { noThresholds with
        thermal_anomaly_confidence := some 0.95
        acoustic_anomaly_confidence := some 0.80
        lstm_reconstruction_threshold := some 0.055
        fusion_correlation_confidence := some 0.65
        pressure_range := some (15, 20) }),
    ("oven",
      { noThresholds with
        thermal_anomaly_confidence := some 0.92
        acoustic_anomaly_confidence := some 0.85
        lstm_reconstruction_threshold := some 0.045
        temperature_max := some 250.0 }),
    ("water_bath",
      { noThresholds with
        thermal_anomaly_confidence := some 0.88
        acoustic_anomaly_confidence := some 0.85
        lstm_reconstruction_threshold := some 0.040
        temperature_range := some (35.0, 40.0) }),
    ("vacuum_pump",
      { noThresholds with
        thermal_anomaly_confidence := some 0.85
        acoustic_anomaly_confidence := some 0.78
        lstm_reconstruction_threshold := some 0.048
        pressure_min := some 0.1 }),
    ("fume_hood",
      { noThresholds with
        acoustic_anomaly_confidence := some 0.82
        lstm_reconstruction_threshold := some 0.045
        airflow_min := some 100
        gas_analog_threshold := some 200 }),
    ("shaker",
      { noThresholds with
        acoustic_anomaly_confidence := some 0.80
        lstm_reconstruction_threshold := some 0.050
        vibration_threshold := some 0.3 }) ]

/-- Embedding of `get_equipment_thresholds(equipment_type)`:
`EQUIPMENT_THRESHOLDS.get(equipment_type, EQUIPMENT_THRESHOLDS["fridge"])`. -/
def get_equipment_thresholds (equipmentType : String) : Thresholds :=
  (EQUIPMENT_THRESHOLDS.lookup equipmentType).getD fridgeThresholds

/-- Module-level constant `config.THERMAL_CRITICAL_THRESHOLD_C` (75.0 °C). -/
def THERMAL_CRITICAL_THRESHOLD_C : ℚ := 75.0

/-- Module-level constant `config.GAS_ANALOG_THRESHOLD` (600). -/
def GAS_ANALOG_THRESHOLD : ℚ := 600

/-- One raw fail-safe violation appended to `alerts` in
`check_raw_sensor_thresholds`, tagged by which branch produced it.
`temperatureCritical` is the branch whose message starts with
"CRITICAL:". -/
inductive RawAlert : Type
  | temperatureRange (v lo hi : ℚ)
  | temperatureCritical (v c : ℚ)
  | gasHigh (v thr : ℚ)
  | co2Range (v lo hi : ℚ)
  | oxygenLow (v m : ℚ)
  | vibrationHigh (v thr : ℚ)
  | currentHigh (v thr : ℚ)
deriving DecidableEq, Repr

/-- Temperature branch of `check_raw_sensor_thresholds`: the per-type
range check and the hard critical ceiling, both inside one `try` whose
`float()` failure (or an absent key) skips the whole branch. -/
def rawTempAlerts (th : Thresholds) (s : SMap) : List RawAlert :=
  match s.lookup "temperature" with
  | none => []
  | some sv =>
    match floatOfVal sv with
    | none => []
    | some v =>
        (match th.temperature_range with
         | some (lo, hi) =>
             if v < lo ∨ hi < v then [RawAlert.temperatureRange v lo hi] else []
         | none => []) ++
        (if THERMAL_CRITICAL_THRESHOLD_C ≤ v then
           [RawAlert.temperatureCritical v THERMAL_CRITICAL_THRESHOLD_C] else [])

/-- Gas branch: `thresholds.get("gas_analog_threshold",
config.GAS_ANALOG_THRESHOLD)`, violation at `gas_val >= gas_threshold`. -/
def rawGasAlerts (th : Thresholds) (s : SMap) : List RawAlert :=
  match floatLookup s "gas" with
  | none => []
  | some v =>
      let thr := th.gas_analog_threshold.getD GAS_ANALOG_THRESHOLD
      if thr ≤ v then [RawAlert.gasHigh v thr] else []

/-- CO2 branch: out-of-range check against the optional `co2_range`. -/
def rawCo2Alerts (th : Thresholds) (s : SMap) : List RawAlert :=
  match floatLookup s "co2" with
  | none => []
  | some v =>
      match th.co2_range with
      | some (lo, hi) => if v < lo ∨ hi < v then [RawAlert.co2Range v lo hi] else []
      | none => []

/-- Oxygen branch: violation when below the optional `oxygen_min`. -/
def rawOxygenAlerts (th : Thresholds) (s : SMap) : List RawAlert :=
  match floatLookup s "oxygen" with
  | none => []
  | some v =>
      match th.oxygen_min with
      | some m => if v < m then [RawAlert.oxygenLow v m] else []
      | none => []

/-- Vibration branch: violation at or above the optional
`vibration_threshold`. -/
def rawVibrationAlerts (th : Thresholds) (s : SMap) : List RawAlert :=
  match floatLookup s "vibration" with
  | none => []
  | some v =>
      match th.vibration_threshold with
      | some thr => if thr ≤ v then [RawAlert.vibrationHigh v thr] else []
      | none => []

/-- Current branch: violation at or above the optional
`current_threshold`. -/
def rawCurrentAlerts (th : Thresholds) (s : SMap) : List RawAlert :=
  match floatLookup s "current" with
  | none => []
  | some v =>
      match th.current_threshold with
      | some thr => if thr ≤ v then [RawAlert.currentHigh v thr] else []
      | none => []

/-- Embedding of `check_raw_sensor_thresholds(equipment, readings)`:
the `alerts` list it accumulates, in source order. -/
def check_raw_sensor_thresholds (equipmentType : String) (s : SMap) : List RawAlert :=
  let th := get_equipment_thresholds equipmentType
  rawTempAlerts th s ++ rawGasAlerts th s ++ rawCo2Alerts th s ++
    rawOxygenAlerts th s ++ rawVibrationAlerts th s ++ rawCurrentAlerts th s

/-- Recognizer for the CRITICAL raw-temperature alert. -/
def isTempCritical : RawAlert → Bool
  | RawAlert.temperatureCritical _ _ => true
  | _ => false

/-- One element of the `inference_results` list consumed by
`check_anomaly_and_alert`: either a `{"error": ...}` dict or a result
dict tagged by its `"model"` field with its score. -/
inductive InfResult : Type
  | failure (msg : String)
  | thermalCNN (anomalyConfidence : ℚ)
  | acousticCNN (anomalyConfidence : ℚ)
  | lstmAE (reconstructionError : ℚ)
deriving DecidableEq, Repr

/-- One entry appended to `anomalies_detected` in
`check_anomaly_and_alert`, tagged by its `"type"` field and carrying the
score and the threshold crossed. -/
inductive ModelAnomaly : Type
  | thermal (confidence threshold : ℚ)
  | acoustic (confidence threshold : ℚ)
  | lstmDegradation (reconstructionError threshold : ℚ)
deriving DecidableEq, Repr

/-- Anomalies contributed by one inference result, against a resolved
threshold profile (dict `.get` defaults 0.85 / 0.85 / 0.045 as in the
source). -/
def anomalyOfResult (th : Thresholds) : InfResult → List ModelAnomaly
  | InfResult.failure _ => []
  | InfResult.thermalCNN c =>
      let thr := th.thermal_anomaly_confidence.getD 0.85
      if thr < c then [ModelAnomaly.thermal c thr] else []
  | InfResult.acousticCNN c =>
      let thr := th.acoustic_anomaly_confidence.getD 0.85
      if thr < c then [ModelAnomaly.acoustic c thr] else []
  | InfResult.lstmAE e =>
      let thr := th.lstm_reconstruction_threshold.getD 0.045
      if thr < e then [ModelAnomaly.lstmDegradation e thr] else []

/-- Embedding of the accumulation loop of
`check_anomaly_and_alert(equipment, inference_results)`: the
`anomalies_detected` list, in source order. -/
def check_anomaly_and_alert (equipmentType : String) (results : List InfResult) :
    List ModelAnomaly :=
  let th := get_equipment_thresholds equipmentType
  results.foldr (fun r acc => anomalyOfResult th r ++ acc) []

/-- Number of composite alert messages composed by
`check_anomaly_and_alert` for one equipment in one cycle: one message
when `anomalies_detected` is non-empty (then fanned out to each
configured channel), zero otherwise. -/
def modelAlertMessageCount (equipmentType : String) (results : List InfResult) : ℕ :=
  if check_anomaly_and_alert equipmentType results = [] then 0 else 1

/-- Number of composite alert messages composed by
`check_raw_sensor_thresholds` for one equipment in one cycle: one
message when its `alerts` list is non-empty, zero otherwise. -/
def rawAlertMessageCount (equipmentType : String) (s : SMap) : ℕ :=
  if check_raw_sensor_thresholds equipmentType s = [] then 0 else 1

/-- Total number of composite anomaly-alert messages one
`monitor_equipment` cycle composes for one equipment (the raw fail-safe
pass plus the model-based pass; security/intrusion alerts are separate). -/
def cycleAnomalyMessageCount (equipmentType : String) (s : SMap)
    (results : List InfResult) : ℕ :=
  rawAlertMessageCount equipmentType s + modelAlertMessageCount equipmentType results

/-- Config constants read by the fusion block of the hardened `main`:
`THERMAL_ANOMALY_CONFIDENCE`, `ACOUSTIC_ANOMALY_CONFIDENCE`,
`FUSION_CORRELATION_CONFIDENCE`, `GAS_ANALOG_THRESHOLD`. -/
structure FusionConfig : Type where
  thermalAnomalyConfidence : ℚ
  acousticAnomalyConfidence : ℚ
  fusionCorrelationConfidence : ℚ
  gasAnalogThreshold : ℚ
deriving DecidableEq, Repr

/-- Default values of those constants in config.py. -/
def fusionConfigDefault : FusionConfig := ⟨0.80, 0.75, 0.60, 600⟩

/-- One alert sent by the fusion block of the hardened `main`, tagged by
which of its four cases fired. -/
inductive FusionAlert : Type
  | thermalCritical (score : ℚ)
  | acousticCritical (score : ℚ)
  | correlated (thermal acoustic : ℚ)
  | gasHigh (reading : ℚ)
deriving DecidableEq, Repr

/-- Embedding of the sensor-fusion and alerting block of `main` in
premonitor_main_hardened.py (step 3): thermal-critical / elif
acoustic-critical / elif correlated, plus an independent gas check. -/
def fusionAlerts (cfg : FusionConfig) (thermalScore acousticScore gasReading : ℚ) :
    List FusionAlert :=
  (if cfg.thermalAnomalyConfidence < thermalScore then
     [FusionAlert.thermalCritical thermalScore]
   else if cfg.acousticAnomalyConfidence < acousticScore then
     [FusionAlert.acousticCritical acousticScore]
   else if cfg.fusionCorrelationConfidence < thermalScore ∧
           cfg.fusionCorrelationConfidence < acousticScore then
     [FusionAlert.correlated thermalScore acousticScore]
   else []) ++
  (if cfg.gasAnalogThreshold < gasReading then [FusionAlert.gasHigh gasReading] else [])

/-- Abstract TFLite interpreter handle as `run_inference` consumes it:
its expected input shape (after the batch dimension, `-1` entries
flexible) and the externally-owned invocation, which either yields a raw
scalar score or raises. -/
structure Interpreter : Type where
  expectedShape : List Int
  invoke : List ℚ → Except String ℚ

/-- Input tensor: its NumPy shape and its payload. -/
structure TensorInput : Type where
  shape : List Int
  data : List ℚ

/-- Shape compatibility test of `run_inference`:
`all(exp == -1 or exp == inp for exp, inp in zip(expected_shape, input_shape))`
(note that `zip` truncates to the shorter list). -/
def shapeCompatible (expected got : List Int) : Bool :=
  (expected.zip got).all fun p => p.1 == -1 || p.1 == p.2

/-- Embedding of `run_inference(interpreter, input_data)` from
premonitor_main_hardened.py: `0.0` for a missing interpreter, a shape
mismatch, or any exception during invocation; otherwise the raw score
clipped into [0, 1] by `np.clip(score, 0.0, 1.0)`. -/
def run_inference (interpreter : Option Interpreter) (x : TensorInput) : ℚ :=
  match interpreter with
  | none => 0
  | some it =>
    if shapeCompatible it.expectedShape x.shape then
      match it.invoke x.data with
      | Except.error _ => 0
      | Except.ok raw => min (max raw 0) 1
    else 0

/-- The SECURITY_CONFIG entries the motion and tamper detectors read. -/
structure SecurityConfig : Type where
  motionEnabled : Bool
  cooldownSeconds : ℚ
  tamperEnabled : Bool
  vibrationThreshold : ℚ
  temperatureChangeRate : ℚ
deriving DecidableEq, Repr

/-- Default SECURITY_CONFIG of security_monitor.py: motion enabled,
300 s cooldown, tamper enabled, 2.0 G, 5.0 °C/min. -/
def securityConfigDefault : SecurityConfig := ⟨true, 300, true, 2.0, 5.0⟩

/-- Mutable state of a `MotionDetector`. -/
structure MotionState : Type where
  lastMotionTime : Option ℚ
  motionActive : Bool
deriving DecidableEq, Repr

/-- Fresh `MotionDetector.__init__` state: no prior motion, idle. -/
def motionInit : MotionState := ⟨none, false⟩

/-- Embedding of `MotionDetector.detect_motion`: `pir` is the raw sensor
read, `now` is `datetime.now()` inside the call.  On a rising edge the
last-motion time is set to `now` and the call returns True; on a falling
edge the active flag clears; otherwise the state is untouched and the
raw read is returned. -/
def detect_motion (cfg : SecurityConfig) (pir : Bool) (now : ℚ) (s : MotionState) :
    Bool × MotionState :=
  if !cfg.motionEnabled then (false, s)
  else if pir && !s.motionActive then (true, ⟨some now, true⟩)
  else if !pir && s.motionActive then (false, ⟨s.lastMotionTime, false⟩)
  else (pir, s)

/-- Embedding of `MotionDetector.is_cooldown_active` at time `now`. -/
def is_cooldown_active (cfg : SecurityConfig) (now : ℚ) (s : MotionState) : Bool :=
  match s.lastMotionTime with
  | none => false
  | some t => decide (now - t < cfg.cooldownSeconds)

/-- Motion branch of `monitor_security`: runs `detect_motion`, then sends
the intrusion alert (and writes the motion_detected log entry — both sit
inside the same guard) iff motion was returned and the cooldown test on
the UPDATED detector state is inactive.  `tDetect` is `datetime.now()`
inside `detect_motion`; `tCheck` the slightly later `datetime.now()`
inside `is_cooldown_active`.  Returns (alert sent?, new state). -/
def monitorSecurityMotion (cfg : SecurityConfig) (afterHours pir : Bool)
    (tDetect tCheck : ℚ) (s : MotionState) : Bool × MotionState :=
  if afterHours || cfg.motionEnabled then
    let r := detect_motion cfg pir tDetect s
    (r.1 && !(is_cooldown_active cfg tCheck r.2), r.2)
  else (false, s)

/-- Run of `monitor_security` motion branches over a trace of reads
(timestamp, raw PIR value), counting the intrusion alerts sent; the two
`datetime.now()` calls within one cycle are identified. -/
def runMotionTrace (cfg : SecurityConfig) (reads : List (ℚ × Bool)) : ℕ × MotionState :=
  reads.foldl
    (fun acc r =>
      let step := monitorSecurityMotion cfg false r.2 r.1 r.1 acc.2
      (acc.1 + (if step.1 then 1 else 0), step.2))
    (0, motionInit)

/-- Stored tamper baseline for one equipment id:
`{"temperature": sensors.get("temperature"), "timestamp": datetime.now()}`. -/
structure TamperBaseline : Type where
  temperature : Option ℚ
  timestamp : ℚ
deriving DecidableEq, Repr

/-- The `TamperDetector.baseline_readings` dict. -/
abbrev TamperState := String → Option TamperBaseline

/-- Fresh `TamperDetector` state: empty baseline dict. -/
def tamperInit : TamperState := fun _ => none

/-- Result dict returned by `check_tamper` when tampering is detected,
tagged by its `"type"` field. -/
inductive TamperResult : Type
  | physicalTampering (vibration : ℚ)
  | thermalTampering (rate : ℚ)
deriving DecidableEq, Repr

/-- Scalar read of a sensors-dict key as `check_tamper` performs it
(`float(sensors[k])`; vibration and temperature readings are scalars in
every reachable state, so the array case is treated as absent). -/
def scalarLookup (s : SMap) (k : String) : Option ℚ :=
  match s.lookup k with
  | some (SensorVal.scalar q) => some q
  | _ => none

/-- Check 2 of `check_tamper`: the temperature change rate against the
stored baseline, `none` when no baseline / no reading / no prior
temperature / non-positive elapsed time / rate within the ceiling. -/
def tamperRate (cfg : SecurityConfig) (baseline : Option TamperBaseline)
    (cur : Option ℚ) (now : ℚ) : Option ℚ :=
  match baseline, cur with
  | some b, some c =>
    match b.temperature with
    | some prev =>
      let timeDiff := (now - b.timestamp) / 60
      if 0 < timeDiff then
        let r := |c - prev| / timeDiff
        if cfg.temperatureChangeRate < r then some r else none
      else none
    | none => none
  | _, _ => none

/-- Check 2 plus the baseline update of `check_tamper`: an exceeded rate
returns early with the state untouched; the fall-through path stores the
current temperature reading and timestamp as the new baseline for
`eqid`. -/
def check_tamper_rate (cfg : SecurityConfig) (eqid : String) (s : SMap) (now : ℚ)
    (st : TamperState) : Option TamperResult × TamperState :=
  match tamperRate cfg (st eqid) (scalarLookup s "temperature") now with
  | some r => (some (TamperResult.thermalTampering r), st)
  | none =>
    (none, fun k => if k = eqid then some ⟨scalarLookup s "temperature", now⟩ else st k)

/-- Embedding of `TamperDetector.check_tamper(equipment_id, readings)` at
time `now`.  Check 1 (vibration at or above the tamper threshold) and
check 2 (temperature change rate above the °C/min ceiling against the
stored baseline) both return EARLY, before the baseline update; only the
fall-through path stores the new baseline for `eqid`. -/
def check_tamper (cfg : SecurityConfig) (eqid : String) (s : SMap) (now : ℚ)
    (st : TamperState) : Option TamperResult × TamperState :=
  if !cfg.tamperEnabled then (none, st)
  else
    match scalarLookup s "vibration" with
    | some v =>
      if cfg.vibrationThreshold ≤ v then (some (TamperResult.physicalTampering v), st)
      else check_tamper_rate cfg eqid s now st
    | none => check_tamper_rate cfg eqid s now st

/-- Static catalog entry of `EQUIPMENT_TYPES`. -/
structure EquipmentTypeDef : Type where
  name : String
  sensors_required : List String
  sensors_optional : List String
  models : List String
  description : String
deriving DecidableEq, Repr

/-- Embedding of the `EQUIPMENT_TYPES` dict of equipment_registry.py. -/
def EQUIPMENT_TYPES : List (String × EquipmentTypeDef) :=
  [ ("fridge",
      ⟨"Refrigerator", ["thermal", "acoustic"], ["gas", "temperature"],
       ["thermal_cnn", "acoustic_cnn", "lstm_ae"],
       "Standard lab refrigerator for sample storage"⟩),
    ("freezer_ultra_low",
      ⟨"Ultra-Low Freezer (-80°C)", ["thermal", "acoustic", "temperature"], ["gas"],
       ["thermal_cnn", "acoustic_cnn", "lstm_ae"],
       "Ultra-low temperature freezer for long-term sample storage"⟩),
    ("incubator",
      ⟨"Incubator", ["thermal", "temperature"], ["co2", "humidity"],
       ["thermal_cnn", "lstm_ae"],
       "Temperature-controlled incubator for cell cultures"⟩),
    ("centrifuge",
      ⟨"Centrifuge", ["acoustic"], ["vibration", "current"],
       ["acoustic_cnn", "lstm_ae"],
       "High-speed centrifuge for sample separation"⟩),
    ("autoclave",
      ⟨"Autoclave", ["thermal", "acoustic"], ["pressure"],
       ["thermal_cnn", "acoustic_cnn", "lstm_ae"],
       "Steam sterilization equipment"⟩),
    ("oven",
      ⟨"Laboratory Oven", ["thermal"], ["temperature"],
       ["thermal_cnn", "lstm_ae"],
       "Drying and heating oven"⟩),
    ("water_bath",
      ⟨"Water Bath", ["thermal", "temperature"], [],
       ["thermal_cnn", "lstm_ae"],
       "Temperature-controlled water bath"⟩),
    ("vacuum_pump",
      ⟨"Vacuum Pump", ["acoustic"], ["vibration", "pressure"],
       ["acoustic_cnn", "lstm_ae"],
       "Vacuum pump for filtration and evaporation"⟩),
    ("fume_hood",
      ⟨"Fume Hood", ["acoustic"], ["airflow", "gas"],
       ["acoustic_cnn"],
       "Ventilated enclosure for hazardous materials"⟩),
    ("shaker",
      ⟨"Orbital Shaker", ["acoustic"], ["vibration"],
       ["acoustic_cnn"],
       "Shaking incubator or orbital shaker"⟩) ]

/-- The `sensor_name_mapping` dict inside `validate_equipment_config`. -/
def sensor_name_mapping : List (String × String) :=
  [ ("thermal", "thermal_camera"),
    ("acoustic", "microphone"),
    ("temperature", "temperature"),
    ("gas", "gas_sensor"),
    ("vibration", "vibration"),
    ("current", "current"),
    ("co2", "co2"),
    ("humidity", "humidity"),
    ("pressure", "pressure"),
    ("airflow", "airflow") ]

/-- Capability name to wiring config key:
`sensor_name_mapping.get(required_sensor, required_sensor)`. -/
def mappedKey (capability : String) : String :=
  (sensor_name_mapping.lookup capability).getD capability

/-- One wiring entry of the equipment `sensors` config dict; only its
`"enabled"` flag is consulted by validation (`.get("enabled", False)`),
driver parameters are irrelevant here. -/
structure SensorCfg : Type where
  enabled : Option Bool
deriving DecidableEq, Repr

/-- Whether a wiring key counts as present-and-enabled for validation:
false when the key is absent, or when its `"enabled"` flag is absent or
false. -/
def sensorWired (sensors : List (String × SensorCfg)) (key : String) : Bool :=
  match sensors.lookup key with
  | some cfg => cfg.enabled.getD false
  | none => false

/-- The required-sensors loop of `validate_equipment_config`: returns at
the first required capability whose mapped wiring key is not
present-and-enabled. -/
def validateRequired (sensors : List (String × SensorCfg)) :
    List String → Bool × String
  | [] => (true, "Configuration valid")
  | r :: rest =>
    let key := mappedKey r
    if sensorWired sensors key then validateRequired sensors rest
    else (false, "Required sensor missing: " ++ r ++ " (config key: " ++ key ++ ")")

/-- Embedding of `validate_equipment_config(equipment)` on the
equipment's `"type"` field and `"sensors"` dict. -/
def validate_equipment_config (eqType : String)
    (sensors : List (String × SensorCfg)) : Bool × String :=
  match EQUIPMENT_TYPES.lookup eqType with
  | none => (false, "Unknown equipment type: " ++ eqType)
  | some td => validateRequired sensors td.sensors_required

/-- The per-equipment LSTM buffer capacity fixed in `monitor_equipment`
("Keep only last 50 time steps"). -/
def LSTM_WINDOW : ℕ := 50

/-- One cycle of the buffer update in `monitor_equipment`: append the new
feature vector, then `pop(0)` once if the length exceeds 50. -/
def lstmBufferPush {α : Type} (buf : List α) (v : α) : List α :=
  let b := buf ++ [v]
  if LSTM_WINDOW < b.length then b.tail else b

/-- Buffer contents after a whole sequence of per-cycle pushes starting
from the empty buffer. -/
def lstmBufferRun {α : Type} (vs : List α) : List α :=
  vs.foldl lstmBufferPush []

/-- Submission guard of `monitor_equipment`: the buffer is handed to
`run_lstm_inference` iff `len(buffer) >= 50`. -/
def lstmSubmits {α : Type} (buf : List α) : Bool :=
  LSTM_WINDOW ≤ buf.length

/-- Pushing one more vector commutes with running the whole history. -/
theorem lstmBufferRun_snoc {α : Type} (vs : List α) (v : α) :
    lstmBufferRun (vs ++ [v]) = lstmBufferPush (lstmBufferRun vs) v := by
  simp [lstmBufferRun, List.foldl_append]

/-- Closed form of the buffer after any push history: the most recent
`LSTM_WINDOW` feature vectors, in arrival order. -/
theorem lstmBufferRun_eq_drop {α : Type} (vs : List α) :
    lstmBufferRun vs = vs.drop (vs.length - LSTM_WINDOW) := by
  induction vs using List.reverseRecOn with
  | nil => rfl
  | append_singleton vs v ih =>
    rw [lstmBufferRun_snoc, ih]
    unfold lstmBufferPush
    by_cases h : vs.length < LSTM_WINDOW
    · have h0 : vs.length - LSTM_WINDOW = 0 := by omega
      have h1 : (vs ++ [v]).length - LSTM_WINDOW = 0 := by
        rw [List.length_append]; simp; omega
      rw [h0, h1, List.drop_zero, List.drop_zero]
      have hc : ¬ LSTM_WINDOW < (vs ++ [v]).length := by
        rw [List.length_append]; simp; omega
      simp only [hc, if_false]
    · push_neg at h
      have hplen : (vs.drop (vs.length - LSTM_WINDOW)).length = LSTM_WINDOW := by
        rw [List.length_drop]; omega
      have hc : LSTM_WINDOW < (vs.drop (vs.length - LSTM_WINDOW) ++ [v]).length := by
        rw [List.length_append, hplen]; simp
      simp only [hc, if_true]
      have hpne : vs.drop (vs.length - LSTM_WINDOW) ≠ [] := by
        intro e
        rw [e] at hplen
        simp [LSTM_WINDOW] at hplen
      rw [List.tail_append_of_ne_nil hpne, List.tail_drop]
      have hW : 0 < LSTM_WINDOW := by simp [LSTM_WINDOW]
      have hd : (vs ++ [v]).length - LSTM_WINDOW = (vs.length - LSTM_WINDOW) + 1 := by
        rw [List.length_append, List.length_singleton]
        omega
      rw [hd, List.drop_append_of_le_length (by omega)]

/-- C7: sliding-window FIFO law — after any sequence of per-cycle pushes
the per-equipment LSTM buffer holds exactly the most recent
`LSTM_WINDOW` (50) feature vectors in arrival order (so it never exceeds
50, each eviction removes precisely the oldest element, and survivor
order is preserved), and the buffer is submitted for LSTM inference
exactly when its length equals the full capacity. -/
theorem sliding_window_fifo (vs : List (List Feat)) :
    (lstmBufferRun vs).length ≤ LSTM_WINDOW ∧
    lstmBufferRun vs = vs.drop (vs.length - LSTM_WINDOW) ∧
    (lstmSubmits (lstmBufferRun vs) = true ↔ (lstmBufferRun vs).length = LSTM_WINDOW) ∧
    ∀ (buf : List (List Feat)) (v : List Feat), buf.length = LSTM_WINDOW →
      lstmBufferPush buf v = buf.tail ++ [v] := by
  have hd := lstmBufferRun_eq_drop (α := List Feat) vs
  have hle : (lstmBufferRun vs).length ≤ LSTM_WINDOW := by
    rw [hd, List.length_drop]; omega
  refine ⟨hle, hd, ?_, ?_⟩
  · simp only [lstmSubmits, decide_eq_true_eq]
    omega
  · intro buf v hb
    unfold lstmBufferPush
    have hc : LSTM_WINDOW < (buf ++ [v]).length := by
      rw [List.length_append, hb]; simp
    simp only [hc, if_true]
    cases buf with
    | nil => simp [LSTM_WINDOW] at hb
    | cons a t => simp

/-- Witness for the hypothesis-bearing conjunct of `sliding_window_fifo`:
a full 50-element buffer evicts exactly its oldest element on push. -/
theorem sliding_window_fifo_witness :
    lstmBufferPush (List.replicate 50 ([Feat.nan])) [Feat.num 1] =
      (List.replicate 50 ([Feat.nan])).tail ++ [[Feat.num 1]] :=
  (sliding_window_fifo []).2.2.2 (List.replicate 50 ([Feat.nan])) [Feat.num 1]
    (by simp [LSTM_WINDOW])

/-- C8: threshold lookup totality — `get_equipment_thresholds` returns a
profile for every type string: the table entry when the type is known,
and the designated default (the "fridge" profile) when it is not; it
never fails. -/
theorem thresholds_lookup_total (ty : String) :
    (EQUIPMENT_THRESHOLDS.lookup ty = none →
       get_equipment_thresholds ty = fridgeThresholds) ∧
    ∀ p, EQUIPMENT_THRESHOLDS.lookup ty = some p →
       get_equipment_thresholds ty = p := by
  constructor
  · intro h
    unfold get_equipment_thresholds
    rw [h]
    rfl
  · intro p h
    unfold get_equipment_thresholds
    rw [h]
    rfl

/-- Witness for `thresholds_lookup_total`: an unknown type string falls
back to the fridge profile. -/
theorem thresholds_lookup_total_witness :
    EQUIPMENT_THRESHOLDS.lookup "plasma_etcher" = none ∧
    get_equipment_thresholds "plasma_etcher" = fridgeThresholds :=
  ⟨by decide, (thresholds_lookup_total "plasma_etcher").1 (by decide)⟩

/-- C9: inference totality and failure masking — `run_inference` always
returns a score in [0, 1]; a missing interpreter, a shape mismatch, or
an exception during invocation all yield 0.0; and a perfectly healthy
inference whose score is 0.0 yields the same value, so a failed
inference is indistinguishable at the fusion layer from a fully normal
score. -/
theorem run_inference_total_and_masks (x : TensorInput) :
    (∀ it, 0 ≤ run_inference it x ∧ run_inference it x ≤ 1) ∧
    run_inference none x = 0 ∧
    (∀ it : Interpreter, shapeCompatible it.expectedShape x.shape = false →
       run_inference (some it) x = 0) ∧
    (∀ (it : Interpreter) (msg : String), it.invoke x.data = Except.error msg →
       run_inference (some it) x = 0) ∧
    (∃ it : Interpreter, shapeCompatible it.expectedShape x.shape = true ∧
       it.invoke x.data = Except.ok 0 ∧ run_inference (some it) x = 0) := by
  refine ⟨?_, rfl, ?_, ?_, ?_⟩
  · intro it
    cases it with
    | none => constructor <;> norm_num [run_inference]
    | some it =>
      unfold run_inference
      by_cases hs : shapeCompatible it.expectedShape x.shape
      · simp only [hs, if_true]
        cases hinv : it.invoke x.data with
        | error e => constructor <;> norm_num
        | ok raw =>
          constructor
          · exact le_min (le_max_right raw 0) zero_le_one
          · exact min_le_right _ _
      · simp only [hs, Bool.false_eq_true, if_false]
        constructor <;> norm_num
  · intro it h
    simp [run_inference, h]
  · intro it msg h
    unfold run_inference
    by_cases hs : shapeCompatible it.expectedShape x.shape <;> simp [hs, h]
  · refine ⟨⟨[], fun _ => Except.ok 0⟩, by simp [shapeCompatible], rfl, ?_⟩
    simp [run_inference, shapeCompatible]

/-- Witness for `run_inference_total_and_masks`: a shape-mismatched call
and an exception-raising call both return 0. -/
theorem run_inference_total_and_masks_witness :
    run_inference (some ⟨[2], fun _ => Except.ok 0.5⟩) ⟨[3], [1, 2, 3]⟩ = 0 ∧
    run_inference (some ⟨[-1], fun _ => Except.error "interpreter fault"⟩)
      ⟨[3], [1, 2, 3]⟩ = 0 :=
  ⟨(run_inference_total_and_masks ⟨[3], [1, 2, 3]⟩).2.2.1
      ⟨[2], fun _ => Except.ok 0.5⟩ (by decide),
   (run_inference_total_and_masks ⟨[3], [1, 2, 3]⟩).2.2.2.1
      ⟨[-1], fun _ => Except.error "interpreter fault"⟩ "interpreter fault" rfl⟩


/-- C2 counterexample: with the default config (thermal threshold 0.80,
acoustic threshold 0.75) and both scores at 0.9 — each above its own
anomaly threshold — the hardened fusion pass emits only the thermal
CRITICAL alert; no CRITICAL acoustic anomaly is emitted, refuting the
claim that every single-sensor confidence above its threshold yields a
CRITICAL anomaly for that sensor. -/
theorem fusion_both_critical_counterexample :
    fusionConfigDefault.acousticAnomalyConfidence < 0.9 ∧
    fusionAlerts fusionConfigDefault 0.9 0.9 0 = [FusionAlert.thermalCritical 0.9] ∧
    FusionAlert.acousticCritical 0.9 ∉ fusionAlerts fusionConfigDefault 0.9 0.9 0 := by
  have h2 : fusionAlerts fusionConfigDefault 0.9 0.9 0 =
      [FusionAlert.thermalCritical 0.9] := by
    norm_num [fusionAlerts, fusionConfigDefault]
  refine ⟨by norm_num [fusionConfigDefault], h2, ?_⟩
  rw [h2]
  simp

/-- C2 amended: the hardened fusion checks form one if/elif chain in
priority order thermal-critical, acoustic-critical, correlated — a
firing thermal check short-circuits BOTH the acoustic critical check and
the correlated check (so two simultaneous above-threshold confidences
yield exactly one CRITICAL alert, the thermal one); the acoustic
critical check runs only when the thermal one did not fire; the gas
threshold check is independent of the chain.  In the multi-equipment
path (`check_anomaly_and_alert`) the per-sensor checks are fully
independent and both sensors do yield an anomaly, but no correlated
check exists there. -/
theorem fusion_priority_chain_amended (cfg : FusionConfig) (t a g : ℚ) :
    (cfg.thermalAnomalyConfidence < t →
       fusionAlerts cfg t a g =
         FusionAlert.thermalCritical t ::
           (if cfg.gasAnalogThreshold < g then [FusionAlert.gasHigh g] else [])) ∧
    (¬ cfg.thermalAnomalyConfidence < t → cfg.acousticAnomalyConfidence < a →
       fusionAlerts cfg t a g =
         FusionAlert.acousticCritical a ::
           (if cfg.gasAnalogThreshold < g then [FusionAlert.gasHigh g] else [])) ∧
    (cfg.thermalAnomalyConfidence < t →
       (∀ c : ℚ, FusionAlert.acousticCritical c ∉ fusionAlerts cfg t a g) ∧
       (∀ u w : ℚ, FusionAlert.correlated u w ∉ fusionAlerts cfg t a g)) ∧
    (∀ (ty : String) (tc ac : ℚ),
       (get_equipment_thresholds ty).thermal_anomaly_confidence.getD 0.85 < tc →
       (get_equipment_thresholds ty).acoustic_anomaly_confidence.getD 0.85 < ac →
       check_anomaly_and_alert ty [InfResult.thermalCNN tc, InfResult.acousticCNN ac] =
         [ModelAnomaly.thermal tc
            ((get_equipment_thresholds ty).thermal_anomaly_confidence.getD 0.85),
          ModelAnomaly.acoustic ac
            ((get_equipment_thresholds ty).acoustic_anomaly_confidence.getD 0.85)]) := by
  refine ⟨?_, ?_, ?_, ?_⟩
  · intro ht
    simp [fusionAlerts, ht]
  · intro ht ha
    simp [fusionAlerts, ht, ha]
  · intro ht
    have he : fusionAlerts cfg t a g =
        FusionAlert.thermalCritical t ::
          (if cfg.gasAnalogThreshold < g then [FusionAlert.gasHigh g] else []) := by
      simp [fusionAlerts, ht]
    constructor
    · intro c
      rw [he]
      by_cases hg : cfg.gasAnalogThreshold < g <;> simp [hg]
    · intro u w
      rw [he]
      by_cases hg : cfg.gasAnalogThreshold < g <;> simp [hg]
  · intro ty tc ac htc hac
    simp [check_anomaly_and_alert, anomalyOfResult, htc, hac]

/-- Witness for `fusion_priority_chain_amended` at the default config
with both scores 0.9, and for the fridge profile with both scores 0.9. -/
theorem fusion_priority_chain_amended_witness :
    fusionAlerts fusionConfigDefault 0.9 0.9 0 =
      FusionAlert.thermalCritical 0.9 ::
        (if fusionConfigDefault.gasAnalogThreshold < 0 then
           [FusionAlert.gasHigh 0] else []) ∧
    check_anomaly_and_alert "fridge"
        [InfResult.thermalCNN 0.9, InfResult.acousticCNN 0.9] =
      [ModelAnomaly.thermal 0.9
         ((get_equipment_thresholds "fridge").thermal_anomaly_confidence.getD 0.85),
       ModelAnomaly.acoustic 0.9
         ((get_equipment_thresholds "fridge").acoustic_anomaly_confidence.getD 0.85)] :=
  ⟨(fusion_priority_chain_amended fusionConfigDefault 0.9 0.9 0).1
     (by norm_num [fusionConfigDefault]),
   (fusion_priority_chain_amended fusionConfigDefault 0.9 0.9 0).2.2.2 "fridge" 0.9 0.9
     (by norm_num [get_equipment_thresholds, EQUIPMENT_THRESHOLDS, fridgeThresholds,
        noThresholds, List.lookup])
     (by norm_num [get_equipment_thresholds, EQUIPMENT_THRESHOLDS, fridgeThresholds,
        noThresholds, List.lookup])⟩

/-- Raw fail-safe alerts of the C3/C4 counterexample cycle: a fridge at
80 °C produces the out-of-range event and the CRITICAL ceiling event. -/
theorem raw_alerts_fridge_80 :
    check_raw_sensor_thresholds "fridge" [("temperature", SensorVal.scalar 80)] =
      [RawAlert.temperatureRange 80 2 8, RawAlert.temperatureCritical 80 75] := by
  have hth : get_equipment_thresholds "fridge" = fridgeThresholds := by
    norm_num [get_equipment_thresholds, EQUIPMENT_THRESHOLDS, List.lookup]
  have h0 : rawTempAlerts fridgeThresholds [("temperature", SensorVal.scalar 80)] =
      [RawAlert.temperatureRange 80 2 8, RawAlert.temperatureCritical 80 75] := by
    norm_num [rawTempAlerts, floatOfVal, List.lookup, fridgeThresholds, noThresholds,
      THERMAL_CRITICAL_THRESHOLD_C]
  have h1 : rawGasAlerts fridgeThresholds [("temperature", SensorVal.scalar 80)] = [] := by
    simp [rawGasAlerts, floatLookup, floatOfVal, List.lookup]
  have h2 : rawCo2Alerts fridgeThresholds [("temperature", SensorVal.scalar 80)] = [] := by
    simp [rawCo2Alerts, floatLookup, floatOfVal, List.lookup]
  have h3 : rawOxygenAlerts fridgeThresholds [("temperature", SensorVal.scalar 80)] = [] := by
    simp [rawOxygenAlerts, floatLookup, floatOfVal, List.lookup]
  have h4 : rawVibrationAlerts fridgeThresholds [("temperature", SensorVal.scalar 80)] = [] := by
    simp [rawVibrationAlerts, floatLookup, floatOfVal, List.lookup]
  have h5 : rawCurrentAlerts fridgeThresholds [("temperature", SensorVal.scalar 80)] = [] := by
    simp [rawCurrentAlerts, floatLookup, floatOfVal, List.lookup]
  simp only [check_raw_sensor_thresholds, hth, h0, h1, h2, h3, h4, h5]
  simp

/-- Model anomalies of the C3 counterexample cycle: a fridge thermal
confidence of 0.9 crosses the 0.85 profile threshold. -/
theorem model_anomalies_fridge_09 :
    check_anomaly_and_alert "fridge" [InfResult.thermalCNN 0.9] =
      [ModelAnomaly.thermal 0.9 0.85] := by
  have hth : get_equipment_thresholds "fridge" = fridgeThresholds := by
    norm_num [get_equipment_thresholds, EQUIPMENT_THRESHOLDS, List.lookup]
  simp only [check_anomaly_and_alert, hth]
  norm_num [anomalyOfResult, fridgeThresholds, noThresholds]

/-- C3 counterexample: a fridge cycle whose raw temperature reading is
80 °C (raw fail-safe events) and whose thermal model confidence is 0.9
(a model anomaly) composes TWO alert messages — one per event source —
not one composite message per equipment. -/
theorem composite_alert_counterexample :
    check_raw_sensor_thresholds "fridge" [("temperature", SensorVal.scalar 80)] ≠ [] ∧
    check_anomaly_and_alert "fridge" [InfResult.thermalCNN 0.9] ≠ [] ∧
    cycleAnomalyMessageCount "fridge" [("temperature", SensorVal.scalar 80)]
      [InfResult.thermalCNN 0.9] = 2 := by
  refine ⟨by rw [raw_alerts_fridge_80]; simp, by rw [model_anomalies_fridge_09]; simp, ?_⟩
  unfold cycleAnomalyMessageCount rawAlertMessageCount modelAlertMessageCount
  rw [raw_alerts_fridge_80, model_anomalies_fridge_09]
  simp

/-- C3 amended: each of the two event sources is merged into its own
composite message per equipment per cycle — the raw fail-safe pass
composes one message when it found any violation and the model pass one
message when it found any anomaly, regardless of how many individual
events each found; a cycle with events from both sources therefore hands
two composed messages to the alert channels, never one per event. -/
theorem composite_alert_per_source_amended (ty : String) (s : SMap)
    (results : List InfResult) :
    cycleAnomalyMessageCount ty s results ≤ 2 ∧
    (check_raw_sensor_thresholds ty s ≠ [] → check_anomaly_and_alert ty results ≠ [] →
       cycleAnomalyMessageCount ty s results = 2) ∧
    (check_raw_sensor_thresholds ty s ≠ [] → check_anomaly_and_alert ty results = [] →
       cycleAnomalyMessageCount ty s results = 1) ∧
    (check_raw_sensor_thresholds ty s = [] → check_anomaly_and_alert ty results ≠ [] →
       cycleAnomalyMessageCount ty s results = 1) ∧
    (check_raw_sensor_thresholds ty s = [] → check_anomaly_and_alert ty results = [] →
       cycleAnomalyMessageCount ty s results = 0) := by
  unfold cycleAnomalyMessageCount rawAlertMessageCount modelAlertMessageCount
  by_cases hr : check_raw_sensor_thresholds ty s = [] <;>
    by_cases hm : check_anomaly_and_alert ty results = [] <;>
      simp [hr, hm]

/-- Witness for `composite_alert_per_source_amended` on the C3
counterexample cycle: both sources non-empty gives two messages. -/
theorem composite_alert_per_source_amended_witness :
    cycleAnomalyMessageCount "fridge" [("temperature", SensorVal.scalar 80)]
      [InfResult.thermalCNN 0.9] = 2 :=
  (composite_alert_per_source_amended "fridge" [("temperature", SensorVal.scalar 80)]
      [InfResult.thermalCNN 0.9]).2.1
    (by rw [raw_alerts_fridge_80]; simp)
    (by rw [model_anomalies_fridge_09]; simp)

/-- Gas-branch alerts are never the CRITICAL raw-temperature alert. -/
theorem rawGas_no_tempCritical (th : Thresholds) (s : SMap) :
    (rawGasAlerts th s).countP isTempCritical = 0 := by
  unfold rawGasAlerts
  cases h : floatLookup s "gas" with
  | none => simp
  | some v => dsimp only; split_ifs <;> simp [isTempCritical]

/-- CO2-branch alerts are never the CRITICAL raw-temperature alert. -/
theorem rawCo2_no_tempCritical (th : Thresholds) (s : SMap) :
    (rawCo2Alerts th s).countP isTempCritical = 0 := by
  unfold rawCo2Alerts
  cases h : floatLookup s "co2" with
  | none => simp
  | some v =>
    cases hr : th.co2_range with
    | none => simp
    | some p =>
      obtain ⟨lo, hi⟩ := p
      dsimp only
      split_ifs <;> simp [isTempCritical]

/-- Oxygen-branch alerts are never the CRITICAL raw-temperature alert. -/
theorem rawOxygen_no_tempCritical (th : Thresholds) (s : SMap) :
    (rawOxygenAlerts th s).countP isTempCritical = 0 := by
  unfold rawOxygenAlerts
  cases h : floatLookup s "oxygen" with
  | none => simp
  | some v =>
    cases hm : th.oxygen_min with
    | none => simp
    | some m => dsimp only; split_ifs <;> simp [isTempCritical]

/-- Vibration-branch alerts are never the CRITICAL raw-temperature alert. -/
theorem rawVibration_no_tempCritical (th : Thresholds) (s : SMap) :
    (rawVibrationAlerts th s).countP isTempCritical = 0 := by
  unfold rawVibrationAlerts
  cases h : floatLookup s "vibration" with
  | none => simp
  | some v =>
    cases hm : th.vibration_threshold with
    | none => simp
    | some m => dsimp only; split_ifs <;> simp [isTempCritical]

/-- Current-branch alerts are never the CRITICAL raw-temperature alert. -/
theorem rawCurrent_no_tempCritical (th : Thresholds) (s : SMap) :
    (rawCurrentAlerts th s).countP isTempCritical = 0 := by
  unfold rawCurrentAlerts
  cases h : floatLookup s "current" with
  | none => simp
  | some v =>
    cases hm : th.current_threshold with
    | none => simp
    | some m => dsimp only; split_ifs <;> simp [isTempCritical]

/-- With a scalar temperature reading at or above the ceiling, the
temperature branch contributes exactly one CRITICAL alert (the range
branch, firing or not, contributes none). -/
theorem rawTemp_tempCritical_count (th : Thresholds) (s : SMap) (v : ℚ)
    (hv : s.lookup "temperature" = some (SensorVal.scalar v))
    (hc : THERMAL_CRITICAL_THRESHOLD_C ≤ v) :
    (rawTempAlerts th s).countP isTempCritical = 1 := by
  unfold rawTempAlerts
  rw [hv]
  simp only [floatOfVal, List.countP_append]
  cases hr : th.temperature_range with
  | none => simp_all [isTempCritical]
  | some p =>
    obtain ⟨lo, hi⟩ := p
    split_ifs <;> simp_all [isTempCritical]

/-- C4: hard critical-temperature fail-safe — for every equipment type
and sensors map whose raw temperature reading is at or above the global
75 °C ceiling, the raw threshold check produces exactly one CRITICAL
raw-temperature anomaly, independently of the equipment type and of its
per-type temperature range. -/
theorem critical_temperature_failsafe (ty : String) (s : SMap) (v : ℚ)
    (hv : s.lookup "temperature" = some (SensorVal.scalar v))
    (hc : THERMAL_CRITICAL_THRESHOLD_C ≤ v) :
    (check_raw_sensor_thresholds ty s).countP isTempCritical = 1 := by
  unfold check_raw_sensor_thresholds
  simp only [List.countP_append]
  rw [rawTemp_tempCritical_count (get_equipment_thresholds ty) s v hv hc,
    rawGas_no_tempCritical, rawCo2_no_tempCritical, rawOxygen_no_tempCritical,
    rawVibration_no_tempCritical, rawCurrent_no_tempCritical]

/-- Witness for `critical_temperature_failsafe`: an incubator at 80 °C
(its own range is (36.5, 37.5), the ceiling is type-independent). -/
theorem critical_temperature_failsafe_witness :
    (check_raw_sensor_thresholds "incubator"
        [("temperature", SensorVal.scalar 80)]).countP isTempCritical = 1 :=
  critical_temperature_failsafe "incubator" [("temperature", SensorVal.scalar 80)] 80
    (by rfl) (by norm_num [THERMAL_CRITICAL_THRESHOLD_C])

/-- Frame behaviour of the check-2-plus-update path: a signalled rate
tamper leaves the whole baseline dict untouched; the quiet path stores
the current reading and timestamp for `eqid` and nothing else. -/
theorem check_tamper_rate_frame (cfg : SecurityConfig) (eqid : String) (s : SMap)
    (now : ℚ) (st : TamperState) :
    ((check_tamper_rate cfg eqid s now st).1 = none →
       (check_tamper_rate cfg eqid s now st).2 eqid =
         some ⟨scalarLookup s "temperature", now⟩ ∧
       ∀ k, k ≠ eqid → (check_tamper_rate cfg eqid s now st).2 k = st k) ∧
    (∀ t, (check_tamper_rate cfg eqid s now st).1 = some t →
       (check_tamper_rate cfg eqid s now st).2 = st) := by
  unfold check_tamper_rate
  cases hr : tamperRate cfg (st eqid) (scalarLookup s "temperature") now with
  | some r =>
    refine ⟨?_, ?_⟩
    · intro h
      simp at h
    · intro t _
      rfl
  | none =>
    refine ⟨?_, ?_⟩
    · intro _
      constructor
      · simp
      · intro k hk
        simp [hk]
    · intro t h
      simp at h

/-- C5 counterexample: with the default config, a 3 G vibration reading
(at or above the 2 G tamper threshold) signals physical tampering and
`check_tamper` returns early — the stored baseline for the equipment id
is left at its old value (temperature 5 at time 0) and does not equal
the current cycle's reading and timestamp (temperature 20 at time 60),
refuting the claim that the baseline update is unconditional. -/
theorem tamper_baseline_counterexample :
    (check_tamper securityConfigDefault "eq1"
        [("vibration", SensorVal.scalar 3), ("temperature", SensorVal.scalar 20)] 60
        (fun k => if k = "eq1" then some ⟨some 5, 0⟩ else none)).1 =
      some (TamperResult.physicalTampering 3) ∧
    (check_tamper securityConfigDefault "eq1"
        [("vibration", SensorVal.scalar 3), ("temperature", SensorVal.scalar 20)] 60
        (fun k => if k = "eq1" then some ⟨some 5, 0⟩ else none)).2 "eq1" =
      some ⟨some 5, 0⟩ ∧
    some (⟨some 5, 0⟩ : TamperBaseline) ≠
      some ⟨some (20 : ℚ), (60 : ℚ)⟩ := by
  have he : check_tamper securityConfigDefault "eq1"
      [("vibration", SensorVal.scalar 3), ("temperature", SensorVal.scalar 20)] 60
      (fun k => if k = "eq1" then some ⟨some 5, 0⟩ else none) =
      (some (TamperResult.physicalTampering 3),
       fun k => if k = "eq1" then some ⟨some 5, 0⟩ else none) := by
    norm_num [check_tamper, scalarLookup, List.lookup, securityConfigDefault]
  refine ⟨by rw [he], by rw [he]; simp, ?_⟩
  intro h
  simp only [Option.some.injEq, TamperBaseline.mk.injEq] at h
  exact absurd h.1 (by norm_num)

/-- C5 amended: with tamper detection enabled, the baseline for the
equipment id is updated to the current cycle's temperature reading and
timestamp exactly when NO tamper is signalled (last-value semantics, no
other id touched); when a tamper is signalled, `check_tamper` returns
before the update and the whole baseline dict is unchanged. -/
theorem tamper_baseline_last_value_amended (cfg : SecurityConfig) (eqid : String)
    (s : SMap) (now : ℚ) (st : TamperState) (hen : cfg.tamperEnabled = true) :
    ((check_tamper cfg eqid s now st).1 = none →
       (check_tamper cfg eqid s now st).2 eqid =
         some ⟨scalarLookup s "temperature", now⟩ ∧
       ∀ k, k ≠ eqid → (check_tamper cfg eqid s now st).2 k = st k) ∧
    (∀ t, (check_tamper cfg eqid s now st).1 = some t →
       (check_tamper cfg eqid s now st).2 = st) := by
  unfold check_tamper
  rw [hen]
  simp only [Bool.not_true, Bool.false_eq_true, if_false]
  cases hv : scalarLookup s "vibration" with
  | none => exact check_tamper_rate_frame cfg eqid s now st
  | some v =>
    dsimp only
    split_ifs with hthr
    · refine ⟨fun h => by simp at h, fun t _ => rfl⟩
    · exact check_tamper_rate_frame cfg eqid s now st

/-- Witness for `tamper_baseline_last_value_amended`: a quiet cycle (no
vibration, first sight of the equipment) stores the current reading. -/
theorem tamper_baseline_last_value_amended_witness :
    (check_tamper securityConfigDefault "eq1"
        [("temperature", SensorVal.scalar 4)] 30 tamperInit).2 "eq1" =
      some ⟨scalarLookup [("temperature", SensorVal.scalar 4)] "temperature", 30⟩ :=
  ((tamper_baseline_last_value_amended securityConfigDefault "eq1"
      [("temperature", SensorVal.scalar 4)] 30 tamperInit rfl).1 (by rfl)).1

/-- Helper for C1: on ANY rising-edge motion read from an inactive
detector, the intrusion alert is suppressed, because `detect_motion` has
just set `last_motion_time` and `monitor_security` consults
`is_cooldown_active` on the updated state an instant later (any gap
shorter than the cooldown window). -/
theorem rising_edge_alert_suppressed (cfg : SecurityConfig) (afterHours : Bool)
    (tDetect tCheck : ℚ) (s : MotionState) (hidle : s.motionActive = false)
    (hgap : tCheck - tDetect < cfg.cooldownSeconds) :
    (monitorSecurityMotion cfg afterHours true tDetect tCheck s).1 = false := by
  by_cases he : cfg.motionEnabled <;>
    by_cases ha : afterHours <;>
      simp [monitorSecurityMotion, detect_motion, is_cooldown_active, he, ha,
        hidle, hgap]

/-- C1: motion-cooldown code bug — from the idle initial state, two
positive motion reads within the 300 s window produce ZERO intrusion
alerts (the claim and spec say exactly one), and the continuation with a
third positive read after the window produces only ONE alert in total
(the claim says two).  When motion drops between reads, no alert is ever
produced.  Cause: `detect_motion` stores `last_motion_time` before
`monitor_security` checks `is_cooldown_active`, so cooldown is already
active at the instant of every fresh detection; the motion log entry
sits inside the same guard, so suppressed detections are not
motion-logged either. -/
theorem motion_cooldown_code_bug :
    (runMotionTrace securityConfigDefault [(0, true), (100, true)]).1 = 0 ∧
    (runMotionTrace securityConfigDefault [(0, true), (100, true), (400, true)]).1 = 1 ∧
    (runMotionTrace securityConfigDefault
        [(0, true), (50, false), (100, true), (200, false), (400, true)]).1 = 0 := by
  refine ⟨?_, ?_, ?_⟩ <;>
    norm_num [runMotionTrace, monitorSecurityMotion, detect_motion, is_cooldown_active,
      motionInit, securityConfigDefault]

/-- Lookup in an association list is invariant under permutation when the
keys are duplicate-free. -/
theorem lookup_perm_nodupkeys {α β : Type} [BEq α] [LawfulBEq α]
    {l₁ l₂ : List (α × β)} (p : l₁.Perm l₂) :
    ∀ k : α, (l₁.map Prod.fst).Nodup → l₁.lookup k = l₂.lookup k := by
  induction p with
  | nil => intro k _; rfl
  | cons x p ih =>
    intro k nd
    obtain ⟨a, b⟩ := x
    simp only [List.map_cons, List.nodup_cons] at nd
    rw [List.lookup_cons, List.lookup_cons]
    cases hk : k == a with
    | true => rfl
    | false =>
      dsimp only
      exact ih k nd.2
  | swap x y l =>
    intro k nd
    obtain ⟨a, b⟩ := x
    obtain ⟨c, d⟩ := y
    simp only [List.map_cons, List.nodup_cons, List.mem_cons] at nd
    rw [List.lookup_cons, List.lookup_cons, List.lookup_cons, List.lookup_cons]
    cases h1 : k == c with
    | true =>
      cases h2 : k == a with
      | true =>
        exfalso
        have hkc : k = c := eq_of_beq h1
        have hka : k = a := eq_of_beq h2
        exact nd.1 (Or.inl (by rw [← hkc, hka]))
      | false => rfl
    | false =>
      cases h2 : k == a with
      | true => rfl
      | false => rfl
  | trans p₁ p₂ ih₁ ih₂ =>
    intro k nd
    have nd₂ := ((p₁.map Prod.fst).nodup_iff).mp nd
    exact (ih₁ k nd).trans (ih₂ k nd₂)

/-- Behaviour of a scalar slot of the feature builder on the two
reachable shapes of the reading. -/
theorem scalarFeat_spec (s : SMap) (k : String) :
    (s.lookup k = none → scalarFeat s k = some Feat.nan) ∧
    (∀ q, s.lookup k = some (SensorVal.scalar q) →
       scalarFeat s k = some (Feat.num q)) := by
  constructor
  · intro h
    simp [scalarFeat, h]
  · intro q h
    simp [scalarFeat, h]

/-- C6: feature-vector determinism — the builder is invariant under
reordering of a duplicate-free reading map, and every vector it returns
has length exactly 6 with the fixed slot order [temperature, gas,
vibration, current, acoustic_rms, thermal_mean] and the NaN sentinel in
every slot whose capability is absent. -/
theorem feature_vector_deterministic :
    (∀ (ty : String) (s1 s2 : SMap), s1.Perm s2 → (s1.map Prod.fst).Nodup →
       build_lstm_feature_vector ty s1 = build_lstm_feature_vector ty s2) ∧
    ∀ (ty : String) (s : SMap) (v : List Feat),
      build_lstm_feature_vector ty s = some v →
      v.length = 6 ∧
      (s.lookup "temperature" = none → v.get? 0 = some Feat.nan) ∧
      (∀ q, s.lookup "temperature" = some (SensorVal.scalar q) →
         v.get? 0 = some (Feat.num q)) ∧
      (s.lookup "gas" = none → v.get? 1 = some Feat.nan) ∧
      (∀ q, s.lookup "gas" = some (SensorVal.scalar q) →
         v.get? 1 = some (Feat.num q)) ∧
      (s.lookup "vibration" = none → v.get? 2 = some Feat.nan) ∧
      (∀ q, s.lookup "vibration" = some (SensorVal.scalar q) →
         v.get? 2 = some (Feat.num q)) ∧
      (s.lookup "current" = none → v.get? 3 = some Feat.nan) ∧
      (∀ q, s.lookup "current" = some (SensorVal.scalar q) →
         v.get? 3 = some (Feat.num q)) ∧
      (s.lookup "audio" = none → v.get? 4 = some Feat.nan) ∧
      (∀ xs, s.lookup "audio" = some (SensorVal.array xs) → xs ≠ [] →
         v.get? 4 = some (Feat.rms (listMeanSq xs))) ∧
      (s.lookup "thermal" = none → v.get? 5 = some Feat.nan) ∧
      (∀ xs, s.lookup "thermal" = some (SensorVal.array xs) → xs ≠ [] →
         v.get? 5 = some (Feat.num (listMean xs))) := by
  constructor
  · intro ty s1 s2 p nd
    have h : ∀ k : String, s1.lookup k = s2.lookup k :=
      fun k => lookup_perm_nodupkeys p k nd
    simp only [build_lstm_feature_vector, scalarFeat, audioFeat, thermalFeat, h]
  · intro ty s v hv
    unfold build_lstm_feature_vector at hv
    cases h0 : scalarFeat s "temperature" with
    | none => rw [h0] at hv; simp at hv
    | some f0 =>
    cases h1 : scalarFeat s "gas" with
    | none => rw [h0, h1] at hv; simp at hv
    | some f1 =>
    cases h2 : scalarFeat s "vibration" with
    | none => rw [h0, h1, h2] at hv; simp at hv
    | some f2 =>
    cases h3 : scalarFeat s "current" with
    | none => rw [h0, h1, h2, h3] at hv; simp at hv
    | some f3 =>
    rw [h0, h1, h2, h3] at hv
    dsimp only at hv
    have hvv : v = [f0, f1, f2, f3, audioFeat s, thermalFeat s] :=
      (Option.some.injEq _ _ ▸ hv).symm
    subst hvv
    refine ⟨rfl, ?_, ?_, ?_, ?_, ?_, ?_, ?_, ?_, ?_, ?_, ?_, ?_⟩
    · intro hl
      have := (scalarFeat_spec s "temperature").1 hl
      rw [this] at h0
      simp only [List.get?]
      exact h0.symm
    · intro q hl
      have := (scalarFeat_spec s "temperature").2 q hl
      rw [this] at h0
      simp only [List.get?]
      exact h0.symm
    · intro hl
      have := (scalarFeat_spec s "gas").1 hl
      rw [this] at h1
      simp only [List.get?]
      exact h1.symm
    · intro q hl
      have := (scalarFeat_spec s "gas").2 q hl
      rw [this] at h1
      simp only [List.get?]
      exact h1.symm
    · intro hl
      have := (scalarFeat_spec s "vibration").1 hl
      rw [this] at h2
      simp only [List.get?]
      exact h2.symm
    · intro q hl
      have := (scalarFeat_spec s "vibration").2 q hl
      rw [this] at h2
      simp only [List.get?]
      exact h2.symm
    · intro hl
      have := (scalarFeat_spec s "current").1 hl
      rw [this] at h3
      simp only [List.get?]
      exact h3.symm
    · intro q hl
      have := (scalarFeat_spec s "current").2 q hl
      rw [this] at h3
      simp only [List.get?]
      exact h3.symm
    · intro hl
      simp only [List.get?]
      simp [audioFeat, hl]
    · intro xs hl hne
      simp only [List.get?]
      simp [audioFeat, hl, hne]
    · intro hl
      simp only [List.get?]
      simp [thermalFeat, hl]
    · intro xs hl hne
      simp only [List.get?]
      simp [thermalFeat, hl, hne]

/-- Witness for `feature_vector_deterministic`: swapping two entries of a
duplicate-free reading map leaves the vector unchanged, and a concrete
build has length 6. -/
theorem feature_vector_deterministic_witness :
    build_lstm_feature_vector "fridge"
        [("gas", SensorVal.scalar 3), ("temperature", SensorVal.scalar 4)] =
      build_lstm_feature_vector "fridge"
        [("temperature", SensorVal.scalar 4), ("gas", SensorVal.scalar 3)] ∧
    ([Feat.num 4, Feat.nan, Feat.nan, Feat.nan, Feat.nan, Feat.nan] : List Feat).length
      = 6 :=
  ⟨feature_vector_deterministic.1 "fridge"
     [("gas", SensorVal.scalar 3), ("temperature", SensorVal.scalar 4)]
     [("temperature", SensorVal.scalar 4), ("gas", SensorVal.scalar 3)]
     (List.Perm.swap ("temperature", SensorVal.scalar 4) ("gas", SensorVal.scalar 3) [])
     (by decide),
   (feature_vector_deterministic.2 "fridge" [("temperature", SensorVal.scalar 4)]
     [Feat.num 4, Feat.nan, Feat.nan, Feat.nan, Feat.nan, Feat.nan] (by rfl)).1⟩

/-- The required-sensor loop fails exactly when some required capability
has a wiring key that is not present-and-enabled. -/
theorem validateRequired_false_iff (sensors : List (String × SensorCfg)) :
    ∀ req : List String,
      ((validateRequired sensors req).1 = false ↔
        ∃ r ∈ req, sensorWired sensors (mappedKey r) = false) := by
  intro req
  induction req with
  | nil => simp [validateRequired]
  | cons r rest ih =>
    by_cases hw : sensorWired sensors (mappedKey r)
    · simp only [validateRequired, hw, if_true]
      rw [ih]
      constructor
      · intro ⟨x, hx, hxw⟩
        exact ⟨x, List.mem_cons_of_mem r hx, hxw⟩
      · intro ⟨x, hx, hxw⟩
        rcases List.mem_cons.mp hx with hx | hx
        · subst hx
          rw [hw] at hxw
          simp at hxw
        · exact ⟨x, hx, hxw⟩
    · simp only [validateRequired, hw, if_false]
      constructor
      · intro _
        exact ⟨r, List.mem_cons_self r rest, by simpa using hw⟩
      · intro _
        rfl

/-- A "Required sensor missing" message is never the success message
(their lengths differ). -/
theorem required_missing_msg_ne (r k : String) :
    ("Required sensor missing: " ++ r ++ " (config key: " ++ k ++ ")") ≠
      "Configuration valid" := by
  intro h
  have hl := congrArg String.length h
  simp only [String.length_append] at hl
  have e1 : ("Required sensor missing: " : String).length = 25 := rfl
  have e2 : (" (config key: " : String).length = 14 := rfl
  have e3 : (")" : String).length = 1 := rfl
  have e4 : ("Configuration valid" : String).length = 19 := rfl
  rw [e1, e2, e3, e4] at hl
  omega

/-- A failed required-sensor loop carries a failure reason, never the
success message. -/
theorem validateRequired_false_msg (sensors : List (String × SensorCfg)) :
    ∀ req : List String, (validateRequired sensors req).1 = false →
      (validateRequired sensors req).2 ≠ "Configuration valid" := by
  intro req
  induction req with
  | nil => intro h; simp [validateRequired] at h
  | cons r rest ih =>
    intro h
    by_cases hw : sensorWired sensors (mappedKey r)
    · simp only [validateRequired, hw, if_true] at h ⊢
      exact ih h
    · simp only [validateRequired, hw, if_false]
      exact required_missing_msg_ne r (mappedKey r)

/-- C10: disabled wiring counts as missing — for every equipment whose
type exists in the catalog, `validate_equipment_config` returns invalid
(False with a reason, never an exception) exactly when some required
capability's mapped wiring key is absent from the sensors config or
present with its enabled flag false or missing. -/
theorem validate_config_disabled_counts_missing (ty : String)
    (td : EquipmentTypeDef) (sensors : List (String × SensorCfg))
    (hty : EQUIPMENT_TYPES.lookup ty = some td) :
    ((validate_equipment_config ty sensors).1 = false ↔
       ∃ r ∈ td.sensors_required, sensorWired sensors (mappedKey r) = false) ∧
    ((validate_equipment_config ty sensors).1 = false →
       (validate_equipment_config ty sensors).2 ≠ "Configuration valid") := by
  unfold validate_equipment_config
  rw [hty]
  exact ⟨validateRequired_false_iff sensors td.sensors_required,
         validateRequired_false_msg sensors td.sensors_required⟩

/-- Witness for `validate_config_disabled_counts_missing`: a fridge whose
microphone is wired but disabled fails validation (the required
"acoustic" capability maps to the "microphone" key). -/
theorem validate_config_disabled_counts_missing_witness :
    (validate_equipment_config "fridge"
        [("thermal_camera", ⟨some true⟩), ("microphone", ⟨some false⟩)]).1 = false :=
  (validate_config_disabled_counts_missing "fridge"
      ⟨"Refrigerator", ["thermal", "acoustic"], ["gas", "temperature"],
       ["thermal_cnn", "acoustic_cnn", "lstm_ae"],
       "Standard lab refrigerator for sample storage"⟩
      [("thermal_camera", ⟨some true⟩), ("microphone", ⟨some false⟩)]
      (by rfl)).1.mpr
    ⟨"acoustic", by simp, by rfl⟩
